import Mathlib

/-!
Verification of the ElderNest/ElderGuard AI decision engine
(`app/services/multi_modal_risk_predictor.py`,
 `app/services/emergency_detector.py`,
 `app/services/alert_service.py`).

The Python code is shallowly embedded:
* Python numbers are modelled by `ℚ` (exact real arithmetic);
* Python dict values that can be of any type are modelled by `Val`
  (a number, a string, a boolean, or `None`);
* a modality summary dict is modelled by `PyDict`, an association list
  from field names to `Val`s, with `dictGet` mirroring `dict.get`;
* operations that can raise a Python `TypeError`/`ValueError` return
  `Except Unit _`; `.error ()` marks a raised exception;
* wall-clock instants are rationals measured in minutes; durations in
  the code (`timedelta(minutes=30)`, `timedelta(hours=1)`,
  `total_seconds()/60`) are converted to minutes accordingly;
* Python's `round(x, 3)` (round-half-to-even at 3 decimals) is modelled
  by `round3` built on `roundHE`, and `int(x)` (truncation toward zero)
  by `pyInt`.
-/

/-- A Python value stored in a modality-summary dict: a number
(`int`/`float`, both modelled by `ℚ`; a Python `bool` is numeric and is
therefore converted by `toNum`), a string, a boolean, or `None`. -/
inductive Val where
  | num (q : ℚ)
  | vstr (s : String)
  | vbool (b : Bool)
  | vnone
  deriving DecidableEq, Repr

/-- A Python dict with string keys, as passed for each modality summary. -/
abbrev PyDict := List (String × Val)

/-- `d.get(k, default)`. -/
def dictGet (d : PyDict) (k : String) (dflt : Val) : Val :=
  match d.find? (fun p => p.1 == k) with
  | some p => p.2
  | none => dflt

/-- `k in d` / `d.get(k)` with no default: `none` when the key is absent. -/
def dictGet? (d : PyDict) (k : String) : Option Val :=
  (d.find? (fun p => p.1 == k)).map (fun p => p.2)

/-- Python truthiness of a `Val` (`if v:`): nonzero number, non-empty
string, `True`; `None` is falsy. -/
def truthy : Val → Bool
  | Val.num q => q != 0
  | Val.vstr s => s != ""
  | Val.vbool b => b
  | Val.vnone => false

/-- Coerce a `Val` to a number the way Python arithmetic and ordered
comparison do: numbers are themselves, `True`/`False` are `1`/`0`, and a
string or `None` raises `TypeError` (modelled as `.error ()`). -/
def toNum : Val → Except Unit ℚ
  | Val.num q => Except.ok q
  | Val.vbool b => Except.ok (if b then 1 else 0)
  | Val.vstr _ => Except.error ()
  | Val.vnone => Except.error ()

/-- `d.get(k, numeric-default)` followed by use in arithmetic/comparison:
returns the number, or raises when a present value is non-numeric. -/
def dictGetNum (d : PyDict) (k : String) (dflt : ℚ) : Except Unit ℚ :=
  toNum (dictGet d k (Val.num dflt))

/-- Round-half-to-even of a rational to an integer
(the rounding mode of Python's builtin `round`). -/
def roundHE (q : ℚ) : ℤ :=
  if q - ⌊q⌋ < 1/2 then ⌊q⌋
  else if 1/2 < q - ⌊q⌋ then ⌊q⌋ + 1
  else if ⌊q⌋ % 2 = 0 then ⌊q⌋ else ⌊q⌋ + 1

/-- Python's `round(x, 3)`. -/
def round3 (x : ℚ) : ℚ := (roundHE (1000 * x) : ℚ) / 1000

/-- Python's `int(x)` for a number: truncation toward zero
(`Int` division in Lean is T-division, which truncates toward zero). -/
def pyInt (q : ℚ) : ℤ := q.num / (q.den : ℤ)

/-- Rendering of a number inside a Python f-string; integers are printed
without a decimal point.  (The digits of non-integer rationals are
abbreviated; no verified property inspects them.) -/
def qstr (q : ℚ) : String :=
  if q.den = 1 then toString q.num else toString q

/-- Rendering of a non-negative number with one decimal digit, as the
`:.1f` format specifier does (round-half-to-even at 1 decimal). -/
def format1f (q : ℚ) : String :=
  let m := roundHE (10 * q)
  if m < 0 then "-" ++ toString ((-m) / 10) ++ "." ++ toString ((-m) % 10)
  else toString (m / 10) ++ "." ++ toString (m % 10)

/-! ## Feature extraction (`MultiModalRiskPredictor._extract_features`)

The extractor reads each of the 15 features from a named key of one
modality dict, with a fixed "no concern" default when the key (or the
whole dict) is absent; values are copied as-is (`dict.get` never raises
and never inspects the value). -/

/-- The features dict built by `_extract_features`: 15 named slots whose
values are whatever the source dicts held (hence `Val`, not `ℚ`). -/
structure ValFeatures where
  avg_sentiment_7days : Val
  sad_mood_count : Val
  lonely_mentions : Val
  health_complaints : Val
  inactive_days : Val
  medicine_missed : Val
  avg_facial_emotion_score : Val
  fall_detected_count : Val
  distress_episodes : Val
  eating_irregularity : Val
  sleep_quality_score : Val
  days_without_eating : Val
  emergency_button_presses : Val
  camera_inactivity_hours : Val
  pain_expression_count : Val
  deriving DecidableEq, Repr

/-- `MultiModalRiskPredictor._extract_features`, key for key. -/
def extractFeatures (chat mood vision activity health : PyDict) : ValFeatures :=
  { avg_sentiment_7days := dictGet chat "avg_sentiment" (Val.num 0)
    lonely_mentions := dictGet chat "lonely_mentions" (Val.num 0)
    health_complaints := dictGet chat "health_complaints" (Val.num 0)
    sad_mood_count := dictGet mood "sad_count" (Val.num 0)
    inactive_days := dictGet mood "inactive_days" (Val.num 0)
    avg_facial_emotion_score := dictGet vision "emotion_score" (Val.num 0)
    fall_detected_count := dictGet vision "fall_count" (Val.num 0)
    distress_episodes := dictGet vision "distress_count" (Val.num 0)
    pain_expression_count := dictGet vision "pain_count" (Val.num 0)
    camera_inactivity_hours := dictGet vision "inactivity_hours" (Val.num 0)
    eating_irregularity := dictGet activity "eating_irregularity" (Val.num 0)
    sleep_quality_score := dictGet activity "sleep_quality" (Val.num 1)
    days_without_eating := dictGet activity "days_without_eating" (Val.num 0)
    medicine_missed := dictGet health "medicine_missed" (Val.num 0)
    emergency_button_presses := dictGet health "emergency_button_presses" (Val.num 0) }

/-- A fully numeric feature vector: the case where every one of the 15
slots holds a number, which is what the rule-based scorer needs. -/
structure Features where
  avg_sentiment_7days : ℚ
  sad_mood_count : ℚ
  lonely_mentions : ℚ
  health_complaints : ℚ
  inactive_days : ℚ
  medicine_missed : ℚ
  avg_facial_emotion_score : ℚ
  fall_detected_count : ℚ
  distress_episodes : ℚ
  eating_irregularity : ℚ
  sleep_quality_score : ℚ
  days_without_eating : ℚ
  emergency_button_presses : ℚ
  camera_inactivity_hours : ℚ
  pain_expression_count : ℚ
  deriving DecidableEq, Repr

/-- Numeric reading of a features dict, in the order the rule-based
scorer touches the slots; raises (`.error ()`) as soon as a slot holds a
non-numeric value, exactly as the Python arithmetic would. -/
def toNumFeatures (f : ValFeatures) : Except Unit Features := do
  let fall ← toNum f.fall_detected_count
  let ebp ← toNum f.emergency_button_presses
  let dwe ← toNum f.days_without_eating
  let de ← toNum f.distress_episodes
  let cih ← toNum f.camera_inactivity_hours
  let pec ← toNum f.pain_expression_count
  let sent ← toNum f.avg_sentiment_7days
  let sad ← toNum f.sad_mood_count
  let lonely ← toNum f.lonely_mentions
  let hc ← toNum f.health_complaints
  let mm ← toNum f.medicine_missed
  let inact ← toNum f.inactive_days
  let face ← toNum f.avg_facial_emotion_score
  let eat ← toNum f.eating_irregularity
  let sleep ← toNum f.sleep_quality_score
  pure
    { avg_sentiment_7days := sent, sad_mood_count := sad,
      lonely_mentions := lonely, health_complaints := hc,
      inactive_days := inact, medicine_missed := mm,
      avg_facial_emotion_score := face, fall_detected_count := fall,
      distress_episodes := de, eating_irregularity := eat,
      sleep_quality_score := sleep, days_without_eating := dwe,
      emergency_button_presses := ebp, camera_inactivity_hours := cih,
      pain_expression_count := pec }

/-! ## Rule-based scorer (`MultiModalRiskPredictor._predict_with_rules`) -/

/-- The weighted `score` accumulated by `_predict_with_rules`, term by
term in source order. -/
def computeScore (f : Features) : ℚ :=
  (if f.fall_detected_count > 0 then 3 * f.fall_detected_count else 0)
  + (if f.emergency_button_presses > 0 then 4 * f.emergency_button_presses else 0)
  + (if f.days_without_eating > 0 then (5/2) * f.days_without_eating else 0)
  + (if f.distress_episodes > 0 then (3/2) * f.distress_episodes else 0)
  + (if f.camera_inactivity_hours > 12 then 2 else 0)
  + (if f.pain_expression_count > 2 then 1 * (f.pain_expression_count - 2) else 0)
  + (-f.avg_sentiment_7days * (3/2))
  + f.sad_mood_count * (3/10)
  + f.lonely_mentions * (2/10)
  + f.health_complaints * (3/10)
  + f.medicine_missed * (4/10)
  + f.inactive_days * (3/10)
  + (-f.avg_facial_emotion_score * (5/10))
  + f.eating_irregularity * (5/10)
  + (1 - f.sleep_quality_score) * (5/10)

/-- `normalized = min(1.0, max(0.0, (score + 2) / 12))`. -/
def normalizedScore (f : Features) : ℚ :=
  min 1 (max 0 ((computeScore f + 2) / 12))

/-- The probability triple returned under `risk_probability`. -/
structure Probs where
  safe : ℚ
  monitor : ℚ
  high_risk : ℚ
  deriving DecidableEq, Repr

/-- Result of one scoring path: label, scalar score, probabilities. -/
structure RuleResult where
  risk_level : String
  risk_score : ℚ
  probabilities : Probs
  deriving DecidableEq, Repr

/-- `_predict_with_rules`: band selection on the normalized score and the
per-band interpolation formulas, each probability rounded to 3 decimals. -/
def predictWithRules (f : Features) : RuleResult :=
  let normalized := normalizedScore f
  if normalized < 3/10 then
    { risk_level := "SAFE", risk_score := round3 normalized,
      probabilities :=
        { safe := round3 (1 - normalized),
          monitor := round3 (normalized * (7/10)),
          high_risk := round3 (normalized * (3/10)) } }
  else if normalized < 6/10 then
    { risk_level := "MONITOR", risk_score := round3 normalized,
      probabilities :=
        { safe := round3 ((1 - normalized) * (5/10)),
          monitor := round3 (5/10 + (normalized - 3/10) * (5/10)),
          high_risk := round3 (normalized * (3/10)) } }
  else
    { risk_level := "HIGH_RISK", risk_score := round3 normalized,
      probabilities :=
        { safe := round3 ((1 - normalized) * (3/10)),
          monitor := round3 ((1 - normalized) * (5/10)),
          high_risk := round3 normalized } }

/-! ## Factors and recommendations
(`_identify_risk_factors`, `_generate_recommendations`)

Literal text of the factor and recommendation strings is copied from the
source; the number rendered inside an f-string is produced by `qstr`. -/

/-- `MultiModalRiskPredictor._identify_risk_factors`, threshold by
threshold in source order. -/
def identifyRiskFactors (f : Features) : List String :=
  let factors :=
    (if f.avg_sentiment_7days < -(3/10) then
      ["Persistent negative mood in conversations"] else [])
    ++ (if f.sad_mood_count > 4 then
      ["Frequent sad moods (" ++ qstr f.sad_mood_count ++ " times)"] else [])
    ++ (if f.lonely_mentions > 3 then
      ["Repeated mentions of loneliness"] else [])
    ++ (if f.health_complaints > 2 then
      [qstr f.health_complaints ++ " health complaints reported"] else [])
    ++ (if f.medicine_missed > 2 then
      [qstr f.medicine_missed ++ " missed medications"] else [])
    ++ (if f.fall_detected_count > 0 then
      ["⚠️ " ++ qstr f.fall_detected_count ++ " fall(s) detected"] else [])
    ++ (if f.distress_episodes > 0 then
      ["⚠️ " ++ qstr f.distress_episodes ++ " distress episode(s)"] else [])
    ++ (if f.pain_expression_count > 2 then
      ["Frequent pain expressions detected"] else [])
    ++ (if f.days_without_eating > 0 then
      ["⚠️ No meals for " ++ qstr f.days_without_eating ++ " day(s)"] else [])
    ++ (if f.camera_inactivity_hours > 12 then
      ["Prolonged inactivity (" ++ format1f f.camera_inactivity_hours ++ " hours)"] else [])
    ++ (if f.sleep_quality_score < 5/10 then
      ["Poor sleep quality"] else [])
    ++ (if f.eating_irregularity > 5/10 then
      ["Irregular eating patterns"] else [])
    ++ (if f.inactive_days > 3 then
      [qstr f.inactive_days ++ " inactive days"] else [])
    ++ (if f.avg_facial_emotion_score < -(3/10) then
      ["Consistently negative facial expressions"] else [])
    ++ (if f.emergency_button_presses > 0 then
      ["🚨 Emergency button pressed " ++ qstr f.emergency_button_presses ++ " time(s)"] else [])
  if factors.isEmpty then ["No major concerns detected"] else factors

/-- Character-list prefix test (used to model Python's `in` on strings). -/
def pfxChars : List Char → List Char → Bool
  | [], _ => true
  | _ :: _, [] => false
  | a :: p, b :: s => a == b && pfxChars p s

/-- Character-list substring test. -/
def subChars (p : List Char) : List Char → Bool
  | [] => pfxChars p []
  | b :: s => pfxChars p (b :: s) || subChars p s

/-- Python's `needle in haystack` for strings. -/
def strContains (haystack needle : String) : Bool :=
  subChars needle.toList haystack.toList

/-- Python's `str.lower()` (ASCII case folding suffices here). -/
def strLower (s : String) : String := s.map Char.toLower

/-- `MultiModalRiskPredictor._generate_recommendations`: label-specific
lists, with the MONITOR/HIGH_RISK branches appending items keyed on
substrings of the lower-cased joined factor text. -/
def generateRecommendations (risk_level : String) (factors : List String) :
    List String :=
  if risk_level == "SAFE" then
    ["✅ Continue regular monitoring",
     "Maintain current care routine",
     "Encourage social activities and engagement"]
  else if risk_level == "MONITOR" then
    let factorsLower := strLower (String.intercalate " " factors)
    let recs :=
      ["📊 Increase check-in frequency"]
      ++ (if strContains factorsLower "lonely" then
        ["💬 Arrange family visit or video call"] else [])
      ++ (if strContains factorsLower "health" || strContains factorsLower "pain" then
        ["🏥 Schedule medical consultation"] else [])
      ++ (if strContains factorsLower "eating" || strContains factorsLower "meal" then
        ["🍽️ Verify food availability and appetite"] else [])
      ++ (if strContains factorsLower "medicine" || strContains factorsLower "medication" then
        ["💊 Set up medication reminders or assistance"] else [])
      ++ (if strContains factorsLower "sleep" then
        ["😴 Assess sleep environment and habits"] else [])
      ++ (if strContains factorsLower "inactive" then
        ["🚶 Encourage light physical activity"] else [])
    recs.take 5
  else
    let factorsStr := strLower (String.intercalate " " factors)
    let recs :=
      ["⚠️ IMMEDIATE ACTION REQUIRED"]
      ++ (if strContains factorsStr "fall" then
        ["🚨 Contact IMMEDIATELY to verify safety after fall"] else [])
      ++ (if strContains factorsStr "eating" && strContains factorsStr "day" then
        ["🚨 URGENT: Check food situation immediately"] else [])
      ++ (if strContains factorsStr "distress" then
        ["🚨 Contact immediately - emotional distress detected"] else [])
      ++ (if strContains factorsStr "inactivity" then
        ["🚨 Verify wellbeing - prolonged inactivity detected"] else [])
      ++ (if strContains factorsStr "emergency" then
        ["🚨 RESPOND TO EMERGENCY BUTTON - contact now"] else [])
      ++ ["📞 Schedule immediate check-in or visit",
          "📋 Evaluate need for increased care level",
          "📊 Monitor closely for next 24-48 hours"]
    recs.take 7

/-! ## Top-level risk assessment (`MultiModalRiskPredictor.predict_risk`)

The trained-classifier artifact is an external collaborator; this
development embeds the process state in which no artifact is loaded, so
`predict_risk` always takes the rule-based path (`model_used =
"rule_based"`).  The whole body of `predict_risk` runs inside one
`try`; the `except` branch returns a degenerate dict carrying only
`risk_level='UNKNOWN'`, `risk_score=0.0` and `error` — absent keys of
that dict are modelled by `none` fields. -/

/-- The dict returned by `predict_risk`.  `Option` fields are keys that
are present only on one of the two return paths. -/
structure PredictOutput where
  risk_level : String
  risk_score : ℚ
  risk_probability : Option Probs
  contributing_factors : Option (List String)
  recommendations : Option (List String)
  model_used : Option String
  error_field : Option Unit
  deriving DecidableEq, Repr

/-- `MultiModalRiskPredictor.predict_risk` on the rule-based path: extract
features, score, derive factors and recommendations; any `TypeError`
raised by a non-numeric feature value is caught by the surrounding
`except`, which returns the degenerate `UNKNOWN` result. -/
def predictRisk (chat mood vision activity health : PyDict) : PredictOutput :=
  match toNumFeatures (extractFeatures chat mood vision activity health) with
  | Except.ok f =>
      let result := predictWithRules f
      let factors := identifyRiskFactors f
      let recommendations := generateRecommendations result.risk_level factors
      { risk_level := result.risk_level,
        risk_score := result.risk_score,
        risk_probability := some result.probabilities,
        contributing_factors := some factors,
        recommendations := some recommendations,
        model_used := some "rule_based",
        error_field := none }
  | Except.error _ =>
      { risk_level := "UNKNOWN", risk_score := 0,
        risk_probability := none, contributing_factors := none,
        recommendations := none, model_used := none,
        error_field := some () }

/-! ## Emergency detection (`EmergencyDetector`)

`detect_emergency` runs seven checks in a fixed order, collects the
triggered candidates, and either returns the no-emergency dict or sorts
the candidates by severity rank (descending, Python's `list.sort` being
stable) and reports the first.

Time: the current instant `now` and parsed timestamps are rationals in
minutes, so that `(datetime.now() - fall_time).total_seconds() / 60`
becomes `now - t`.  `datetime.fromisoformat` is an external library
call; it is modelled by an explicit parameter
`parse : String → Option ℚ` (`none` = the string raises `ValueError`);
calling it on a non-string value raises `TypeError`.  Both exceptions
are caught inside `_check_fall_emergency`. -/

/-- One emergency candidate dict as produced by the `_check_*` helpers
(`ctype` models the `'type'` key; `riskFactors` the `'risk_factors'`
key, present only on the combined-risks candidate). -/
structure Candidate where
  ctype : String
  severity : String
  message : String
  action : String
  riskFactors : Option (List String) := none
  deriving DecidableEq, Repr

/-- `severity_order.get(severity, 0)` with
`severity_order = critical 4, high 3, medium 2, low 1`. -/
def severityRank (s : String) : ℕ :=
  if s = "critical" then 4
  else if s = "high" then 3
  else if s = "medium" then 2
  else if s = "low" then 1
  else 0

/-- The critical no-movement-since-fall candidate, whose message renders
the elapsed minutes. -/
def fallNoMovementCand (timeSinceFall : ℚ) : Candidate :=
  { ctype := "fall_no_movement", severity := "critical",
    message := "🚨 URGENT: Fall detected " ++ toString (pyInt timeSinceFall)
      ++ " minutes ago with no movement detected!",
    action := "Call immediately or contact emergency services (911). Elder may be unable to get up or be unconscious." }

/-- The critical immediate fall-detected candidate. -/
def fallDetectedCand : Candidate :=
  { ctype := "fall_detected", severity := "critical",
    message := "🚨 FALL DETECTED! Elder appears to have fallen.",
    action := "Contact immediately to verify safety. Be prepared to call emergency services if no response." }

/-- `EmergencyDetector._check_fall_emergency` (the `recent_events`
argument of the source is unused by its body and is omitted). -/
def checkFallEmergency (parse : String → Option ℚ) (vision : PyDict)
    (now : ℚ) : Option Candidate :=
  if !truthy (dictGet vision "fall_detected" Val.vnone) then none
  else
    let fallTimestamp := dictGet vision "fall_timestamp" Val.vnone
    let fromTimestamp : Option Candidate :=
      if truthy fallTimestamp then
        match fallTimestamp with
        | Val.vstr s =>
            match parse s with
            | some fallTime =>
                if now - fallTime ≥ 5 then
                  some (fallNoMovementCand (now - fallTime))
                else none
            | none => none      -- ValueError from fromisoformat, caught
        | _ => none             -- TypeError from fromisoformat, caught
      else none
    match fromTimestamp with
    | some c => some c
    | none => some fallDetectedCand

/-- `EmergencyDetector._check_distress_emergency` (string equality on a
`Val` never raises in Python, so this check is total). -/
def checkDistressEmergency (vision : PyDict) : Option Candidate :=
  let distressLevel := dictGet vision "distress_level" (Val.vstr "low")
  if distressLevel = Val.vstr "critical" then
    some { ctype := "extreme_distress", severity := "critical",
           message := "🚨 URGENT: Extreme emotional distress detected! Facial expressions indicate severe distress.",
           action := "Contact immediately to check on wellbeing and provide support." }
  else if distressLevel = Val.vstr "high" then
    some { ctype := "high_distress", severity := "high",
           message := "High emotional distress detected in facial expressions.",
           action := "Schedule immediate check-in call or visit." }
  else none

/-- The text Python's f-string renders for an arbitrary value. -/
def valStr : Val → String
  | Val.num q => qstr q
  | Val.vstr s => s
  | Val.vbool b => if b then "True" else "False"
  | Val.vnone => "None"

/-- The medium-severity pain-indicators candidate. -/
def painIndicatorsCand (painExpressions healthComplaints : ℚ) : Candidate :=
  { ctype := "pain_indicators", severity := "medium",
    message := "Multiple pain indicators: " ++ qstr painExpressions
      ++ " pain expressions, " ++ qstr healthComplaints
      ++ " health complaints.",
    action := "Monitor closely and check in about health status." }

/-- The high-severity severe-pain candidate. -/
def severePainCand (painScore : ℚ) (painExpressionsV : Val) : Candidate :=
  { ctype := "severe_pain", severity := "high",
    message := "Severe pain detected (score: " ++ format1f painScore
      ++ "). Visible pain expressions count: " ++ valStr painExpressionsV,
    action := "Contact to assess pain level. Consider arranging medical consultation if persistent." }

/-- The second condition of `_check_pain_emergency`
(`pain_expression_count > 3 and health_complaints > 2`), reached when
the severe-pain condition did not fire. -/
def checkPainIndicators (vision health : PyDict) :
    Except Unit (Option Candidate) := do
  let painExpressions ← toNum (dictGet vision "pain_expression_count" (Val.num 0))
  if painExpressions > 3 then do
    let healthComplaints ← toNum (dictGet health "health_complaints" (Val.num 0))
    if healthComplaints > 2 then
      pure (some (painIndicatorsCand painExpressions healthComplaints))
    else pure none
  else pure none

/-- `EmergencyDetector._check_pain_emergency`.  Note: `pain_detected`
and `pain_expression_count` are read from `vision_data`, while
`pain_score` and `health_complaints` are read from `health_data`.
`dict.get` itself never raises; raising happens at the numeric
comparisons, and Python's `and` short-circuits, so `pain_score > 0.7`
is evaluated (and can raise) only when `pain_detected` is truthy, and
`health_complaints > 2` only when `pain_expression_count > 3` held. -/
def checkPainEmergency (vision health : PyDict) :
    Except Unit (Option Candidate) := do
  let painDetectedV := dictGet vision "pain_detected" (Val.vbool false)
  let painScoreV := dictGet health "pain_score" (Val.num 0)
  let painExpressionsV := dictGet vision "pain_expression_count" (Val.num 0)
  if truthy painDetectedV then do
    let painScore ← toNum painScoreV
    if painScore > 7/10 then
      pure (some (severePainCand painScore painExpressionsV))
    else checkPainIndicators vision health
  else checkPainIndicators vision health

/-- `EmergencyDetector._check_eating_emergency`. -/
def checkEatingEmergency (activity : PyDict) :
    Except Unit (Option Candidate) := do
  let daysWithoutEating ← dictGetNum activity "days_without_eating" 0
  if daysWithoutEating ≥ 2 then
    pure (some { ctype := "no_eating", severity := "critical",
                 message := "🚨 URGENT: No meals detected for "
                   ++ qstr daysWithoutEating ++ " days!",
                 action := "Contact IMMEDIATELY to ensure food access, appetite, and ability to eat. This may indicate serious health issues or inability to prepare food." })
  else if daysWithoutEating = 1 then
    pure (some { ctype := "missed_meals", severity := "medium",
                 message := "No meals detected for the past day.",
                 action := "Check in to verify eating status and food availability." })
  else pure none

/-- `EmergencyDetector._check_inactivity_emergency`. -/
def checkInactivityEmergency (activity : PyDict) :
    Except Unit (Option Candidate) := do
  let maxInactivity ← dictGetNum activity "max_inactivity_hours" 0
  if maxInactivity ≥ 18 then
    pure (some { ctype := "prolonged_inactivity", severity := "high",
                 message := "No movement detected for "
                   ++ format1f maxInactivity ++ " hours.",
                 action := "Contact immediately to verify safety. Prolonged inactivity may indicate medical emergency or inability to move." })
  else if maxInactivity ≥ 12 then
    pure (some { ctype := "extended_inactivity", severity := "medium",
                 message := "Extended inactivity: no movement for "
                   ++ format1f maxInactivity ++ " hours.",
                 action := "Schedule check-in to verify wellbeing." })
  else pure none

/-- `EmergencyDetector._check_emergency_button`. -/
def checkEmergencyButton (health : PyDict) :
    Except Unit (Option Candidate) := do
  let emergencyPresses ← dictGetNum health "emergency_button_presses" 0
  if emergencyPresses > 0 then
    pure (some { ctype := "emergency_button", severity := "critical",
                 message := "🚨 EMERGENCY BUTTON PRESSED ("
                   ++ qstr emergencyPresses ++ " times)!",
                 action := "Contact IMMEDIATELY or call emergency services. Elder has actively requested help." })
  else pure none

/-- `EmergencyDetector._check_combined_risks`. -/
def checkCombinedRisks (vision activity health : PyDict) :
    Except Unit (Option Candidate) := do
  let distressLevel := dictGet vision "distress_level" Val.vnone
  let riskFactors1 :=
    (if distressLevel = Val.vstr "high" ∨ distressLevel = Val.vstr "critical"
     then ["emotional distress"] else [])
    ++ (if truthy (dictGet vision "pain_detected" Val.vnone)
     then ["pain expressions"] else [])
    ++ (if truthy (dictGet vision "unusual_posture" Val.vnone)
     then ["unusual posture"] else [])
    ++ (if truthy (dictGet activity "prolonged_inactivity" Val.vnone)
     then ["prolonged inactivity"] else [])
    ++ (if truthy (dictGet activity "concerning" Val.vnone)
     then ["concerning activity patterns"] else [])
  let daysWithoutEating ← dictGetNum activity "days_without_eating" 0
  let healthComplaints ← dictGetNum health "health_complaints" 0
  let medicineMissed ← dictGetNum health "medicine_missed" 0
  let riskFactors := riskFactors1
    ++ (if daysWithoutEating > 0 then ["missed meals"] else [])
    ++ (if healthComplaints > 3 then ["multiple health complaints"] else [])
    ++ (if medicineMissed > 3 then ["missed medications"] else [])
  if riskFactors.length ≥ 3 then
    pure (some { ctype := "multiple_risk_factors", severity := "high",
                 message := "Multiple concerning signals detected: "
                   ++ String.intercalate ", " (riskFactors.take 5)
                   ++ (if riskFactors.length > 5 then "..." else ""),
                 action := "Schedule urgent check-in or visit. Multiple indicators suggest declining wellbeing.",
                 riskFactors := some riskFactors })
  else pure none

/-- The `emergencies` list accumulated by `detect_emergency`: the seven
checks run in source order, each appending its candidate when triggered. -/
def collectEmergencies (parse : String → Option ℚ)
    (vision activity health : PyDict) (now : ℚ) :
    Except Unit (List Candidate) := do
  let c1 := checkFallEmergency parse vision now
  let c2 := checkDistressEmergency vision
  let c3 ← checkPainEmergency vision health
  let c4 ← checkEatingEmergency activity
  let c5 ← checkInactivityEmergency activity
  let c6 ← checkEmergencyButton health
  let c7 ← checkCombinedRisks vision activity health
  pure (([c1, c2, c3, c4, c5, c6, c7].filterMap id))

/-- Python's `list.sort(key=severity rank, reverse=True)` is a stable
sort: elements of equal rank keep their original relative order.  Since
ranks lie in `{0,…,4}`, that sorted list is exactly the concatenation of
the rank buckets in descending rank order. -/
def sortBySeverityDesc (l : List Candidate) : List Candidate :=
  (l.filter (fun c => severityRank c.severity == 4))
  ++ (l.filter (fun c => severityRank c.severity == 3))
  ++ (l.filter (fun c => severityRank c.severity == 2))
  ++ (l.filter (fun c => severityRank c.severity == 1))
  ++ (l.filter (fun c => severityRank c.severity == 0))

/-- The dict returned by `detect_emergency`.  The `total_emergencies`
key is written only on the emergency path of the source, hence the
`Option ℕ` (`none` = key absent from the returned dict); the
`timestamp` key (wall-clock `isoformat` string) is modelled by the
instant `now`. -/
structure EmergencyResult where
  emergency : Bool
  emergency_type : Option String
  severity : String
  alert_message : Option String
  recommended_action : Option String
  all_concerns : List Candidate
  total_emergencies : Option ℕ
  timestamp : ℚ
  deriving DecidableEq, Repr

/-- `EmergencyDetector.detect_emergency`. -/
def detectEmergency (parse : String → Option ℚ)
    (vision activity health : PyDict) (now : ℚ) :
    Except Unit EmergencyResult := do
  let emergencies ← collectEmergencies parse vision activity health now
  if emergencies.isEmpty then
    pure { emergency := false, emergency_type := none, severity := "none",
           alert_message := none, recommended_action := none,
           all_concerns := [], total_emergencies := none, timestamp := now }
  else
    let sorted := sortBySeverityDesc emergencies
    match sorted with
    | [] =>
        -- unreachable: sorting a non-empty list yields a non-empty list
        pure { emergency := false, emergency_type := none, severity := "none",
               alert_message := none, recommended_action := none,
               all_concerns := [], total_emergencies := none, timestamp := now }
    | top :: _ =>
        pure { emergency := true, emergency_type := some top.ctype,
               severity := top.severity, alert_message := some top.message,
               recommended_action := some top.action,
               all_concerns := sorted,
               total_emergencies := some sorted.length, timestamp := now }

/-! ## Alert dispatch with rate limiting (`AlertService`)

State: `alert_history`, a dict from `"{elder_id}:{alert_type}"` keys to
lists of send instants, modelled as a total function defaulting to `[]`
(the source's `if key in self.alert_history` / `if key not in ...`
branches coincide with the empty list).  Instants are rationals in
minutes: `ALERT_COOLDOWN_MINUTES = 30` and the one-hour pruning horizon
is `60`.

Channels: the development embeds the mock-mode process state (no
Firebase/Twilio credentials), in which `_send_fcm_notification` and
`_send_sms_alert` both return `True`; `_log_alert` only writes to the
external audit sink and is a no-op here.  The result dict's
`results.fcm_sent` / `results.sms_sent` counters therefore equal the
number of channel invocations of each kind. -/

/-- The in-memory `alert_history` cache. -/
abbrev AlertHistory := String → List ℚ

/-- One entry of the `family_members` argument. -/
structure FamilyMember where
  fcmToken : Option String
  phone : Option String
  deriving DecidableEq, Repr

/-- The `results` counters accumulated by `send_emergency_alert`. -/
structure SendCounters where
  fcm_sent : ℕ
  sms_sent : ℕ
  failed : ℕ
  deriving DecidableEq, Repr

/-- The dict returned by `send_emergency_alert` (keys present only on
some paths are `Option`s). -/
structure DispatchResult where
  sent : Bool
  reason : Option String
  results : Option SendCounters
  deriving DecidableEq, Repr

/-- `AlertService._is_rate_limited`: limited iff some recorded instant
for the key lies strictly within the 30-minute cooldown window. -/
def isRateLimited (hist : AlertHistory) (key : String) (now : ℚ) : Bool :=
  ((hist key).filter (fun ts => now - ts < 30)).length > 0

/-- `AlertService._record_alert`: append the new instant, then keep only
entries newer than the one-hour cutoff. -/
def recordAlert (hist : AlertHistory) (key : String) (now : ℚ) :
    AlertHistory :=
  fun k => if k = key then ((hist key) ++ [now]).filter (fun ts => ts > now - 60)
           else hist k

/-- The rate-limiting key `f"{elder_id}:{alert_type}"`. -/
def alertKey (elderId alertType : String) : String :=
  elderId ++ ":" ++ alertType

/-- `AlertService.send_emergency_alert` (mock channel mode): check the
rate limit; if limited, return the suppression dict without touching any
channel or the history; otherwise fan out (FCM per member with a token,
SMS per member with a phone when severity is critical), record the send
instant once, and return the success dict.  Returns the result together
with the updated `alert_history`. -/
def sendEmergencyAlert (hist : AlertHistory) (elderId alertType : String)
    (severity : String) (familyMembers : List FamilyMember) (now : ℚ) :
    DispatchResult × AlertHistory :=
  let key := alertKey elderId alertType
  if isRateLimited hist key now then
    ({ sent := false, reason := some "rate_limited", results := none }, hist)
  else
    let counters : SendCounters :=
      { fcm_sent := (familyMembers.filter (fun m => m.fcmToken.isSome)).length,
        sms_sent := (familyMembers.filter
          (fun m => severity == "critical" && m.phone.isSome)).length,
        failed := 0 }
    ({ sent := true, reason := none, results := some counters },
     recordAlert hist key now)

/-! ## Supporting lemmas -/

/-- Round-half-to-even is within one half of its argument. -/
theorem abs_roundHE_sub_le (q : ℚ) : |(roundHE q : ℚ) - q| ≤ 1/2 := by
  have h0 : (⌊q⌋ : ℚ) ≤ q := Int.floor_le q
  have h1 : q < ⌊q⌋ + 1 := Int.lt_floor_add_one q
  rw [roundHE]
  split
  · rw [abs_le]; constructor <;> linarith
  · split
    · rw [abs_le]; push_cast; constructor <;> linarith
    · split
      · rw [abs_le]; constructor <;> linarith
      · rw [abs_le]; push_cast; constructor <;> linarith

/-- `round(x, 3)` is within `1/2000` of `x`. -/
theorem abs_round3_sub_le (x : ℚ) : |round3 x - x| ≤ 1/2000 := by
  have h := abs_roundHE_sub_le (1000 * x)
  have heq : round3 x - x = ((roundHE (1000 * x) : ℚ) - 1000 * x) / 1000 := by
    rw [round3]; ring
  rw [heq, abs_div, abs_of_pos (show (0:ℚ) < 1000 by norm_num)]
  linarith

/-- Every severity rank is at most 4. -/
theorem severityRank_le_four (s : String) : severityRank s ≤ 4 := by
  rw [severityRank]; split_ifs <;> norm_num

/-- The head of a filtered list is the first element satisfying the
predicate. -/
theorem head?_filter {α : Type} (p : α → Bool) (l : List α) :
    (l.filter p).head? = l.find? p := by
  induction l with
  | nil => rfl
  | cons a t ih =>
      rw [List.filter_cons, List.find?_cons]
      by_cases h : p a <;> simp [h, ih]

/-- Bucket counting: the count of a candidate in one rank bucket. -/
theorem count_filter_rank (c : Candidate) (k : ℕ) (l : List Candidate) :
    List.count c (l.filter (fun d => severityRank d.severity == k)) =
      if severityRank c.severity = k then List.count c l else 0 := by
  split
  · exact List.count_filter (by simp [*])
  · rw [List.count_eq_zero]
    intro hmem
    rw [List.mem_filter] at hmem
    simp_all

/-- The severity-bucket sort is a permutation of its input. -/
theorem sortBySeverityDesc_perm (l : List Candidate) :
    (sortBySeverityDesc l).Perm l := by
  rw [List.perm_iff_count]
  intro c
  have hle : severityRank c.severity ≤ 4 := severityRank_le_four _
  have hcase : severityRank c.severity = 4 ∨ severityRank c.severity = 3
      ∨ severityRank c.severity = 2 ∨ severityRank c.severity = 1
      ∨ severityRank c.severity = 0 := by omega
  simp only [sortBySeverityDesc, List.count_append, count_filter_rank]
  rcases hcase with h | h | h | h | h <;> simp [h]

/-! ## Claim C3 — probability sums of the rule-based scorer -/

/-- What the three per-band probability formulas of
`_predict_with_rules` sum to before rounding, written from the band
formulas: `1` in the SAFE band, `0.85 + 0.3·normalized` in the MONITOR
band, `0.8 + 0.2·normalized` in the HIGH_RISK band. -/
def bandProbSum (f : Features) : ℚ :=
  let n := normalizedScore f
  if n < 3/10 then 1
  else if n < 6/10 then 17/20 + (3/10) * n
  else 4/5 + (1/5) * n

/-- A feature vector whose normalized score is exactly `0.3`
(weighted score `8 × 0.2 = 1.6`, normalized `(1.6+2)/12 = 0.3`). -/
def fvMonitorBoundary : Features :=
  { avg_sentiment_7days := 0, sad_mood_count := 0, lonely_mentions := 8,
    health_complaints := 0, inactive_days := 0, medicine_missed := 0,
    avg_facial_emotion_score := 0, fall_detected_count := 0,
    distress_episodes := 0, eating_irregularity := 0,
    sleep_quality_score := 1, days_without_eating := 0,
    emergency_button_presses := 0, camera_inactivity_hours := 0,
    pain_expression_count := 0 }

/-- C3, counterexample: on the MONITOR-band feature vector with
normalized score exactly `0.3` the rule-based scorer returns the
probabilities `(0.35, 0.5, 0.09)`, which sum to `0.94` — not `1.0`
within the claimed `1e-6` tolerance. -/
theorem roundHE_intCast (m : ℤ) : roundHE (m : ℚ) = m := by
  rw [roundHE]
  simp [Int.floor_intCast]

theorem round3_div1000 (m : ℤ) : round3 ((m : ℚ) / 1000) = (m : ℚ) / 1000 := by
  have h : (1000 : ℚ) * ((m : ℚ) / 1000) = (m : ℚ) := by ring
  rw [round3, h, roundHE_intCast]

theorem rule_probabilities_sum_counterexample :
    (predictWithRules fvMonitorBoundary).probabilities.safe
      + (predictWithRules fvMonitorBoundary).probabilities.monitor
      + (predictWithRules fvMonitorBoundary).probabilities.high_risk
      = 47/50
    ∧ ¬ (|((predictWithRules fvMonitorBoundary).probabilities.safe
      + (predictWithRules fvMonitorBoundary).probabilities.monitor
      + (predictWithRules fvMonitorBoundary).probabilities.high_risk) - 1|
        ≤ 1/1000000) := by
  have hnorm : normalizedScore fvMonitorBoundary = 3/10 := by
    rw [normalizedScore]
    norm_num [computeScore, fvMonitorBoundary]
  have h350 : round3 (((1:ℚ) - 3/10) * (5/10)) = 35/100 := by
    have h : ((1:ℚ) - 3/10) * (5/10) = ((350:ℤ) : ℚ) / 1000 := by norm_num
    rw [h, round3_div1000]; norm_num
  have h500 : round3 ((5:ℚ)/10 + ((3:ℚ)/10 - 3/10) * (5/10)) = 1/2 := by
    have h : (5:ℚ)/10 + ((3:ℚ)/10 - 3/10) * (5/10) = ((500:ℤ) : ℚ) / 1000 := by
      norm_num
    rw [h, round3_div1000]; norm_num
  have h90 : round3 ((3:ℚ)/10 * (3/10)) = 9/100 := by
    have h : (3:ℚ)/10 * (3/10) = ((90:ℤ) : ℚ) / 1000 := by norm_num
    rw [h, round3_div1000]; norm_num
  have hsum : (predictWithRules fvMonitorBoundary).probabilities.safe
      + (predictWithRules fvMonitorBoundary).probabilities.monitor
      + (predictWithRules fvMonitorBoundary).probabilities.high_risk
      = 47/50 := by
    simp only [predictWithRules, hnorm]
    rw [if_neg (by norm_num), if_pos (by norm_num)]
    dsimp only
    rw [h350, h500, h90]
    norm_num
  refine ⟨hsum, ?_⟩
  rw [hsum]
  have h : (47:ℚ)/50 - 1 = -(3/50) := by norm_num
  rw [h, abs_neg, abs_of_pos (by norm_num : (0:ℚ) < 3/50)]
  norm_num

/-- C3, amended: for every feature vector the three probabilities
returned by the rule-based scorer sum, up to the `round(·, 3)` rounding
error of at most `1.5e-3`, to `bandProbSum`: exactly `1` only in the
SAFE band, but `0.85 + 0.3·normalized` in the MONITOR band and
`0.8 + 0.2·normalized` in the HIGH_RISK band, so the sum is not within
`1e-6` of `1` in general. -/
theorem rule_probabilities_band_sums (f : Features) :
    |((predictWithRules f).probabilities.safe
      + (predictWithRules f).probabilities.monitor
      + (predictWithRules f).probabilities.high_risk) - bandProbSum f|
      ≤ 3/2000 := by
  rw [predictWithRules, bandProbSum]
  by_cases h1 : normalizedScore f < 3/10
  · simp only [if_pos h1]
    have a := abs_le.mp (abs_round3_sub_le (1 - normalizedScore f))
    have b := abs_le.mp (abs_round3_sub_le (normalizedScore f * (7/10)))
    have c := abs_le.mp (abs_round3_sub_le (normalizedScore f * (3/10)))
    rw [abs_le]
    constructor <;> (dsimp only; linarith [a.1, a.2, b.1, b.2, c.1, c.2])
  · simp only [if_neg h1]
    by_cases h2 : normalizedScore f < 6/10
    · simp only [if_pos h2]
      have a := abs_le.mp (abs_round3_sub_le ((1 - normalizedScore f) * (5/10)))
      have b := abs_le.mp (abs_round3_sub_le (5/10 + (normalizedScore f - 3/10) * (5/10)))
      have c := abs_le.mp (abs_round3_sub_le (normalizedScore f * (3/10)))
      rw [abs_le]
      constructor <;> (dsimp only; linarith [a.1, a.2, b.1, b.2, c.1, c.2])
    · simp only [if_neg h2]
      have a := abs_le.mp (abs_round3_sub_le ((1 - normalizedScore f) * (3/10)))
      have b := abs_le.mp (abs_round3_sub_le ((1 - normalizedScore f) * (5/10)))
      have c := abs_le.mp (abs_round3_sub_le (normalizedScore f))
      rw [abs_le]
      constructor <;> (dsimp only; linarith [a.1, a.2, b.1, b.2, c.1, c.2])

/-! ## Claim C4 — rule-based weighted sum, normalization and bands -/

/-- A guarded linear term `if x > 0 then c * x else 0` equals `c * x`
whenever `x` is non-negative. -/
theorem guard_mul_of_nonneg (c x : ℚ) (hx : 0 ≤ x) :
    (if x > 0 then c * x else 0) = c * x := by
  rcases hx.lt_or_eq with h | h
  · rw [if_pos h]
  · rw [if_neg (by rw [← h]; exact lt_irrefl 0), ← h, mul_zero]

/-- `min 1 (max 0 y)` is the same two-sided clamp as `max 0 (min 1 y)`. -/
theorem min_max_clamp (y : ℚ) : min 1 (max 0 y) = max 0 (min 1 y) := by
  simp only [min_def, max_def]
  split_ifs <;> linarith

/-- The weighted sum written from the claim: the fixed coefficients
`fall×3.0, button×4.0, days×2.5, distress×1.5`, a flat `+2.0` when
`camera_inactivity_hours > 12`, `×1.0` per pain expression beyond 2,
`−sentiment×1.5, sad×0.3, lonely×0.2, complaints×0.3, medicine×0.4,
inactive×0.3, −facial×0.5, eating×0.5, (1−sleep)×0.5`. -/
def specScoreC4 (f : Features) : ℚ :=
  f.fall_detected_count * 3 + f.emergency_button_presses * 4
  + f.days_without_eating * (5/2) + f.distress_episodes * (3/2)
  + (if f.camera_inactivity_hours > 12 then 2 else 0)
  + (if f.pain_expression_count > 2 then (f.pain_expression_count - 2) * 1 else 0)
  + (-f.avg_sentiment_7days) * (3/2)
  + f.sad_mood_count * (3/10) + f.lonely_mentions * (2/10)
  + f.health_complaints * (3/10) + f.medicine_missed * (4/10)
  + f.inactive_days * (3/10)
  + (-f.avg_facial_emotion_score) * (5/10) + f.eating_irregularity * (5/10)
  + (1 - f.sleep_quality_score) * (5/10)

/-- `clamp(x, 0, 1)` as the claim words it. -/
def clampSpec (x : ℚ) : ℚ := max 0 (min 1 x)

/-- C4: on count features that are non-negative (their domain in the
data model), the rule-based scorer's weighted sum equals the claim's
fixed-coefficient formula, the normalization is `clamp((score+2)/12,
0, 1)`, the label is SAFE / MONITOR / HIGH_RISK by the `<0.3` / `<0.6`
bands, and the boundaries land as claimed: normalized exactly `0.3`
gives MONITOR and exactly `0.6` gives HIGH_RISK. -/
theorem rule_score_weights_and_bands (f : Features)
    (hfall : 0 ≤ f.fall_detected_count)
    (hebp : 0 ≤ f.emergency_button_presses)
    (hdwe : 0 ≤ f.days_without_eating)
    (hde : 0 ≤ f.distress_episodes) :
    computeScore f = specScoreC4 f
    ∧ normalizedScore f = clampSpec ((computeScore f + 2) / 12)
    ∧ (predictWithRules f).risk_level =
        (if normalizedScore f < 3/10 then "SAFE"
         else if normalizedScore f < 6/10 then "MONITOR" else "HIGH_RISK")
    ∧ (normalizedScore f = 3/10 → (predictWithRules f).risk_level = "MONITOR")
    ∧ (normalizedScore f = 6/10 → (predictWithRules f).risk_level = "HIGH_RISK") := by
  refine ⟨?_, ?_, ?_, ?_, ?_⟩
  · rw [computeScore, specScoreC4, guard_mul_of_nonneg 3 _ hfall,
      guard_mul_of_nonneg 4 _ hebp, guard_mul_of_nonneg (5/2) _ hdwe,
      guard_mul_of_nonneg (3/2) _ hde]
    by_cases h1 : f.camera_inactivity_hours > 12 <;>
      by_cases h2 : f.pain_expression_count > 2 <;>
      simp [h1, h2] <;> ring
  · rw [normalizedScore, clampSpec, min_max_clamp]
  · simp only [predictWithRules]
    split_ifs <;> rfl
  · intro h
    simp only [predictWithRules, h]
    rw [if_neg (lt_irrefl _), if_pos (by norm_num)]
  · intro h
    simp only [predictWithRules, h]
    rw [if_neg (by norm_num), if_neg (lt_irrefl _)]

/-- An all-clear feature vector (every count 0, sleep quality 1). -/
def fvAllClear : Features :=
  { avg_sentiment_7days := 0, sad_mood_count := 0, lonely_mentions := 0,
    health_complaints := 0, inactive_days := 0, medicine_missed := 0,
    avg_facial_emotion_score := 0, fall_detected_count := 0,
    distress_episodes := 0, eating_irregularity := 0,
    sleep_quality_score := 1, days_without_eating := 0,
    emergency_button_presses := 0, camera_inactivity_hours := 0,
    pain_expression_count := 0 }

/-- Witness for C4 at the all-clear feature vector. -/
theorem rule_score_weights_and_bands_witness :
    (0 ≤ fvAllClear.fall_detected_count
      ∧ 0 ≤ fvAllClear.emergency_button_presses
      ∧ 0 ≤ fvAllClear.days_without_eating
      ∧ 0 ≤ fvAllClear.distress_episodes)
    ∧ (computeScore fvAllClear = specScoreC4 fvAllClear
       ∧ normalizedScore fvAllClear = clampSpec ((computeScore fvAllClear + 2) / 12)
       ∧ (predictWithRules fvAllClear).risk_level =
           (if normalizedScore fvAllClear < 3/10 then "SAFE"
            else if normalizedScore fvAllClear < 6/10 then "MONITOR" else "HIGH_RISK")
       ∧ (normalizedScore fvAllClear = 3/10 →
           (predictWithRules fvAllClear).risk_level = "MONITOR")
       ∧ (normalizedScore fvAllClear = 6/10 →
           (predictWithRules fvAllClear).risk_level = "HIGH_RISK")) :=
  ⟨⟨by norm_num [fvAllClear], by norm_num [fvAllClear],
    by norm_num [fvAllClear], by norm_num [fvAllClear]⟩,
   rule_score_weights_and_bands fvAllClear (by norm_num [fvAllClear])
     (by norm_num [fvAllClear]) (by norm_num [fvAllClear])
     (by norm_num [fvAllClear])⟩

/-- Bind of a successful `Except` computation. -/
theorem exceptOkBind {ε α β : Type} (a : α) (f : α → Except ε β) :
    (Except.ok a >>= f : Except ε β) = f a := rfl

/-- Bind of a failed `Except` computation. -/
theorem exceptErrorBind {ε α β : Type} (e : ε) (f : α → Except ε β) :
    (Except.error e >>= f : Except ε β) = Except.error e := rfl

/-- `pure` on `Except` is `Except.ok`. -/
theorem exceptPure {ε α : Type} (a : α) :
    (pure a : Except ε α) = Except.ok a := rfl

/-! ## Claim C9 — feature extraction keys and defaults -/

/-- The feature-extraction mapping written from the amended claim: each
feature comes from the named key of its modality with a fixed
"no concern" default (`avg_sentiment → 0.0`, `sleep_quality → 1.0`,
counts → 0), the vision-sourced counters being read from the keys
`fall_count`, `distress_count`, `pain_count` and `inactivity_hours`
(not from the spec's `fall_detected`/`pain_expression_count` names). -/
def extractSpecC9 (chat mood vision activity health : PyDict) : ValFeatures :=
  { avg_sentiment_7days := dictGet chat "avg_sentiment" (Val.num 0)
    lonely_mentions := dictGet chat "lonely_mentions" (Val.num 0)
    health_complaints := dictGet chat "health_complaints" (Val.num 0)
    sad_mood_count := dictGet mood "sad_count" (Val.num 0)
    inactive_days := dictGet mood "inactive_days" (Val.num 0)
    avg_facial_emotion_score := dictGet vision "emotion_score" (Val.num 0)
    fall_detected_count := dictGet vision "fall_count" (Val.num 0)
    distress_episodes := dictGet vision "distress_count" (Val.num 0)
    pain_expression_count := dictGet vision "pain_count" (Val.num 0)
    camera_inactivity_hours := dictGet vision "inactivity_hours" (Val.num 0)
    eating_irregularity := dictGet activity "eating_irregularity" (Val.num 0)
    sleep_quality_score := dictGet activity "sleep_quality" (Val.num 1)
    days_without_eating := dictGet activity "days_without_eating" (Val.num 0)
    medicine_missed := dictGet health "medicine_missed" (Val.num 0)
    emergency_button_presses := dictGet health "emergency_button_presses" (Val.num 0) }

/-- C9, counterexample: a vision dict carrying the documented field name
`pain_expression_count` with value 5 does not populate the
`pain_expression_count` feature — the extractor reads the key
`pain_count` and falls back to the default 0. -/
theorem extract_features_spec_key_counterexample :
    dictGet? [("pain_expression_count", Val.num 5)] "pain_expression_count"
      = some (Val.num 5)
    ∧ (extractFeatures [] [] [("pain_expression_count", Val.num 5)] [] []).pain_expression_count
      = Val.num 0 :=
  ⟨rfl, rfl⟩

/-- C9, amended: extraction reads each feature from its actual source
key (`fall_count`, `distress_count`, `pain_count`, `inactivity_hours`
on the vision side) with the fixed defaults, never raises (it is a total
function) and has no side effects; on absent modalities every feature
is its "no concern" default. -/
theorem extract_features_keys_and_defaults :
    (∀ chat mood vision activity health : PyDict,
      extractFeatures chat mood vision activity health =
        extractSpecC9 chat mood vision activity health)
    ∧ extractFeatures [] [] [] [] [] =
      { avg_sentiment_7days := Val.num 0, sad_mood_count := Val.num 0,
        lonely_mentions := Val.num 0, health_complaints := Val.num 0,
        inactive_days := Val.num 0, medicine_missed := Val.num 0,
        avg_facial_emotion_score := Val.num 0, fall_detected_count := Val.num 0,
        distress_episodes := Val.num 0, eating_irregularity := Val.num 0,
        sleep_quality_score := Val.num 1, days_without_eating := Val.num 0,
        emergency_button_presses := Val.num 0,
        camera_inactivity_hours := Val.num 0,
        pain_expression_count := Val.num 0 } :=
  ⟨fun _ _ _ _ _ => rfl, rfl⟩

/-! ## Claim C7 — malformed present fields and the returned label -/

/-- The rule-based label is always one of the three risk levels. -/
theorem predictWithRules_level_mem (f : Features) :
    (predictWithRules f).risk_level = "SAFE"
    ∨ (predictWithRules f).risk_level = "MONITOR"
    ∨ (predictWithRules f).risk_level = "HIGH_RISK" := by
  simp only [predictWithRules]
  split_ifs <;> simp

/-- C7, amended: `predict_risk` does not substitute defaults for
malformed present fields.  Either every extracted feature is numeric
and the returned label is the rule-based one (hence SAFE, MONITOR or
HIGH_RISK), or some present field is non-numeric, the scoring raises,
and the surrounding `except` returns the degenerate result with
`risk_level='UNKNOWN'` and `risk_score=0.0` carrying no probabilities,
factors or recommendations. -/
theorem predict_risk_label_or_unknown (chat mood vision activity health : PyDict) :
    (∃ f, toNumFeatures (extractFeatures chat mood vision activity health)
        = Except.ok f
      ∧ (predictRisk chat mood vision activity health).risk_level
          = (predictWithRules f).risk_level
      ∧ ((predictRisk chat mood vision activity health).risk_level = "SAFE"
        ∨ (predictRisk chat mood vision activity health).risk_level = "MONITOR"
        ∨ (predictRisk chat mood vision activity health).risk_level = "HIGH_RISK"))
    ∨ (toNumFeatures (extractFeatures chat mood vision activity health)
        = Except.error ()
      ∧ predictRisk chat mood vision activity health =
          { risk_level := "UNKNOWN", risk_score := 0, risk_probability := none,
            contributing_factors := none, recommendations := none,
            model_used := none, error_field := some () }) := by
  cases h : toNumFeatures (extractFeatures chat mood vision activity health) with
  | ok f =>
      left
      refine ⟨f, rfl, ?_, ?_⟩
      · simp only [predictRisk, h]
      · have hm := predictWithRules_level_mem f
        simp only [predictRisk, h]
        exact hm
  | error e =>
      right
      cases e
      exact ⟨rfl, by simp only [predictRisk, h]⟩

/-- A chat dict whose present `avg_sentiment` field is a string. -/
def chatMalformed : PyDict := [("avg_sentiment", Val.vstr "very low")]

/-- C7, counterexample: with a present non-numeric `avg_sentiment`, the
assessment does not continue with the default — it returns the
degenerate `UNKNOWN` label, which is none of SAFE/MONITOR/HIGH_RISK. -/
theorem predict_risk_malformed_counterexample :
    dictGet? chatMalformed "avg_sentiment" = some (Val.vstr "very low")
    ∧ (predictRisk chatMalformed [] [] [] []).risk_level = "UNKNOWN"
    ∧ ¬((predictRisk chatMalformed [] [] [] []).risk_level = "SAFE"
      ∨ (predictRisk chatMalformed [] [] [] []).risk_level = "MONITOR"
      ∨ (predictRisk chatMalformed [] [] [] []).risk_level = "HIGH_RISK") := by
  have h : (predictRisk chatMalformed [] [] [] []).risk_level = "UNKNOWN" := rfl
  refine ⟨rfl, h, ?_⟩
  rw [h]
  decide

/-! ## Claim C8 — sources and firing conditions of the pain check -/

/-- Closed form of the second pain condition given numeric readings of
its two fields. -/
theorem checkPainIndicators_eq (vision health : PyDict) (pe hc : ℚ)
    (hpe : toNum (dictGet vision "pain_expression_count" (Val.num 0)) = Except.ok pe)
    (hhc : toNum (dictGet health "health_complaints" (Val.num 0)) = Except.ok hc) :
    checkPainIndicators vision health =
      Except.ok (if pe > 3 ∧ hc > 2 then some (painIndicatorsCand pe hc)
                 else none) := by
  simp only [checkPainIndicators, hpe, exceptOkBind]
  by_cases h1 : pe > 3
  · rw [if_pos h1]
    simp only [hhc, exceptOkBind]
    by_cases h2 : hc > 2
    · rw [if_pos h2, if_pos ⟨h1, h2⟩, exceptPure]
    · rw [if_neg h2, if_neg (fun hb => h2 hb.2), exceptPure]
  · rw [if_neg h1, if_neg (fun hb => h1 hb.1), exceptPure]

/-- C8, amended: the severe-pain candidate (high severity) fires exactly
when `pain_detected` (a vision field) is truthy and `pain_score` — read
from the HEALTH modality summary, not from vision — exceeds 0.7;
otherwise the medium-severity candidate fires exactly when
`pain_expression_count` (vision) > 3 and `health_complaints` (health)
> 2; at most one of the two fires, the severe one being checked
first. -/
theorem check_pain_characterization (vision health : PyDict) (ps pe hc : ℚ)
    (hps : toNum (dictGet health "pain_score" (Val.num 0)) = Except.ok ps)
    (hpe : toNum (dictGet vision "pain_expression_count" (Val.num 0)) = Except.ok pe)
    (hhc : toNum (dictGet health "health_complaints" (Val.num 0)) = Except.ok hc) :
    checkPainEmergency vision health = Except.ok
      (if truthy (dictGet vision "pain_detected" (Val.vbool false)) = true
          ∧ ps > 7/10
       then some (severePainCand ps (dictGet vision "pain_expression_count" (Val.num 0)))
       else if pe > 3 ∧ hc > 2 then some (painIndicatorsCand pe hc)
       else none) := by
  simp only [checkPainEmergency]
  cases hpd : truthy (dictGet vision "pain_detected" (Val.vbool false))
  · rw [if_neg (by simp), if_neg (by simp)]
    exact checkPainIndicators_eq vision health pe hc hpe hhc
  · rw [if_pos rfl]
    simp only [hps, exceptOkBind]
    by_cases h2 : ps > 7/10
    · rw [if_pos h2, if_pos ⟨trivial, h2⟩, exceptPure]
    · rw [if_neg h2, if_neg (fun hb => h2 hb.2)]
      exact checkPainIndicators_eq vision health pe hc hpe hhc

/-- A vision dict carrying both `pain_detected=True` and a high
`pain_score`, the way the spec's field list locates `pain_score`. -/
def visionPain : PyDict :=
  [("pain_detected", Val.vbool true), ("pain_score", Val.num (9/10))]

/-- C8, counterexample: with `pain_detected` true and `pain_score=0.9`
both in the vision summary (and empty health data), the claim asserts a
severe-pain candidate, but the check reads `pain_score` from
`health_data` (default 0) and emits nothing. -/
theorem pain_score_not_from_vision_counterexample :
    dictGet visionPain "pain_score" Val.vnone = Val.num (9/10)
    ∧ truthy (dictGet visionPain "pain_detected" (Val.vbool false)) = true
    ∧ (9:ℚ)/10 > 7/10
    ∧ checkPainEmergency visionPain [] = Except.ok none := by
  refine ⟨rfl, rfl, by norm_num, ?_⟩
  have h1 : dictGet visionPain "pain_detected" (Val.vbool false)
      = Val.vbool true := rfl
  have h2 : toNum (dictGet ([] : PyDict) "pain_score" (Val.num 0))
      = Except.ok 0 := rfl
  have h3 : toNum (dictGet visionPain "pain_expression_count" (Val.num 0))
      = Except.ok 0 := rfl
  simp only [checkPainEmergency, checkPainIndicators, h1, h2, h3, exceptOkBind]
  rw [if_pos (show truthy (Val.vbool true) = true from rfl),
    if_neg (by norm_num : ¬((0:ℚ) > 7/10)),
    if_neg (by norm_num : ¬((0:ℚ) > 3)), exceptPure]

/-- Concrete vision/health dicts for the C8 witness. -/
def visionW8 : PyDict := [("pain_detected", Val.vbool true)]

/-- Concrete health dict for the C8 witness: `pain_score = 1`. -/
def healthW8 : PyDict := [("pain_score", Val.num 1)]

/-- Witness for C8 at `pain_detected=True`, health `pain_score=1`. -/
theorem check_pain_characterization_witness :
    toNum (dictGet healthW8 "pain_score" (Val.num 0)) = Except.ok 1
    ∧ toNum (dictGet visionW8 "pain_expression_count" (Val.num 0)) = Except.ok 0
    ∧ toNum (dictGet healthW8 "health_complaints" (Val.num 0)) = Except.ok 0
    ∧ checkPainEmergency visionW8 healthW8 = Except.ok
      (if truthy (dictGet visionW8 "pain_detected" (Val.vbool false)) = true
          ∧ (1:ℚ) > 7/10
       then some (severePainCand 1 (dictGet visionW8 "pain_expression_count" (Val.num 0)))
       else if (0:ℚ) > 3 ∧ (0:ℚ) > 2 then some (painIndicatorsCand 0 0)
       else none) :=
  ⟨rfl, rfl, rfl,
   check_pain_characterization visionW8 healthW8 1 0 0 rfl rfl rfl⟩

/-! ## Claim C2 — the fall check emits exactly one candidate -/

/-- The condition under which the no-movement variant fires: a truthy
string timestamp that parses, with at least 5 elapsed minutes. -/
def fallNoMovementFires (parse : String → Option ℚ) (vision : PyDict)
    (now : ℚ) : Prop :=
  ∃ s t, dictGet vision "fall_timestamp" Val.vnone = Val.vstr s
    ∧ truthy (Val.vstr s) = true ∧ parse s = some t ∧ now - t ≥ 5


/-- C2: when `fall_detected` is not truthy the fall check emits nothing;
when it is truthy it emits exactly one candidate, always critical —
the `fall_no_movement` variant (with the elapsed-minutes message) when a
truthy string timestamp parses to an instant at least 5 minutes old, and
the immediate `fall_detected` variant otherwise (in particular when no
timestamp is present). -/
theorem check_fall_exactly_one_candidate (parse : String → Option ℚ)
    (vision : PyDict) (now : ℚ) :
    (truthy (dictGet vision "fall_detected" Val.vnone) = false →
      checkFallEmergency parse vision now = none)
    ∧ (truthy (dictGet vision "fall_detected" Val.vnone) = true →
      ∃ c, checkFallEmergency parse vision now = some c
        ∧ c.severity = "critical"
        ∧ ((∃ s t, dictGet vision "fall_timestamp" Val.vnone = Val.vstr s
              ∧ truthy (Val.vstr s) = true ∧ parse s = some t ∧ now - t ≥ 5
              ∧ c = fallNoMovementCand (now - t))
           ∨ (¬ fallNoMovementFires parse vision now ∧ c = fallDetectedCand))) := by
  constructor
  · intro h
    simp [checkFallEmergency, h]
  · intro h
    simp only [checkFallEmergency, h, Bool.not_true]
    rw [if_neg (by simp)]
    rcases htsv : dictGet vision "fall_timestamp" Val.vnone with q | sv | b | _
    · refine ⟨fallDetectedCand, ?_, rfl, Or.inr ⟨?_, rfl⟩⟩
      · cases hq : truthy (Val.num q) <;> simp [hq]
      · simp only [fallNoMovementFires, htsv]
        rintro ⟨s', t', hs', -, -, -⟩
        exact Val.noConfusion hs'
    · by_cases hts : truthy (Val.vstr sv) = true
      · rw [if_pos hts]
        dsimp only
        cases hp : parse sv with
        | some t =>
            dsimp only
            by_cases he : now - t ≥ 5
            · rw [if_pos he]
              exact ⟨fallNoMovementCand (now - t), rfl, rfl,
                Or.inl ⟨sv, t, rfl, hts, hp, he, rfl⟩⟩
            · rw [if_neg he]
              refine ⟨fallDetectedCand, rfl, rfl, Or.inr ⟨?_, rfl⟩⟩
              simp only [fallNoMovementFires, htsv]
              rintro ⟨s', t', hs', -, hp', he'⟩
              cases Val.vstr.inj hs'
              rw [hp] at hp'
              cases Option.some.inj hp'
              exact he he'
        | none =>
            refine ⟨fallDetectedCand, rfl, rfl, Or.inr ⟨?_, rfl⟩⟩
            simp only [fallNoMovementFires, htsv]
            rintro ⟨s', t', hs', -, hp', -⟩
            cases Val.vstr.inj hs'
            rw [hp] at hp'
            exact Option.noConfusion hp'
      · rw [if_neg hts]
        refine ⟨fallDetectedCand, rfl, rfl, Or.inr ⟨?_, rfl⟩⟩
        simp only [fallNoMovementFires, htsv]
        rintro ⟨s', t', hs', hts', -, -⟩
        cases Val.vstr.inj hs'
        exact hts hts'
    · refine ⟨fallDetectedCand, ?_, rfl, Or.inr ⟨?_, rfl⟩⟩
      · cases hb : truthy (Val.vbool b) <;> simp [hb]
      · simp only [fallNoMovementFires, htsv]
        rintro ⟨s', t', hs', -, -, -⟩
        exact Val.noConfusion hs'
    · refine ⟨fallDetectedCand, ?_, rfl, Or.inr ⟨?_, rfl⟩⟩
      · simp [truthy]
      · simp only [fallNoMovementFires, htsv]
        rintro ⟨s', t', hs', -, -, -⟩
        exact Val.noConfusion hs'

/-- Parse function that accepts nothing (no string is a valid ISO
timestamp for it). -/
def parseNone : String → Option ℚ := fun _ => none

/-- A vision dict with only `fall_detected=True`. -/
def visionFallW : PyDict := [("fall_detected", Val.vbool true)]

/-- Witness for C2 at `fall_detected=True` with no timestamp. -/
theorem check_fall_exactly_one_candidate_witness :
    truthy (dictGet visionFallW "fall_detected" Val.vnone) = true
    ∧ ∃ c, checkFallEmergency parseNone visionFallW 0 = some c
        ∧ c.severity = "critical"
        ∧ ((∃ s t, dictGet visionFallW "fall_timestamp" Val.vnone = Val.vstr s
              ∧ truthy (Val.vstr s) = true ∧ parseNone s = some t ∧ 0 - t ≥ 5
              ∧ c = fallNoMovementCand (0 - t))
           ∨ (¬ fallNoMovementFires parseNone visionFallW 0 ∧ c = fallDetectedCand)) :=
  ⟨rfl, (check_fall_exactly_one_candidate parseNone visionFallW 0).2 rfl⟩

/-! ## Claim C10 — malformed fall timestamps degrade gracefully

`eraseKey` removes a key from a dict; it is the verification device used
to state "exactly as if no timestamp had been provided". -/

/-- Remove every binding of key `k` from a dict. -/
def eraseKey (d : PyDict) (k : String) : PyDict :=
  d.filter (fun p => !(p.1 == k))

/-- `find?` commutes with a `filter` that keeps every possible hit. -/
theorem find?_filter_of_imp {α : Type} (p q : α → Bool) (l : List α)
    (himp : ∀ x, p x = true → q x = true) :
    (l.filter q).find? p = l.find? p := by
  induction l with
  | nil => rfl
  | cons a t ih =>
      rw [List.filter_cons]
      by_cases hq : q a = true
      · rw [if_pos hq, List.find?_cons, List.find?_cons]
        cases hp : p a <;> simp [hp, ih]
      · have hpf : p a = false := by
          cases hpa : p a
          · rfl
          · exact absurd (himp a hpa) hq
        rw [if_neg hq]
        simp only [List.find?_cons, hpf]
        exact ih

/-- Looking up a different key is unaffected by `eraseKey`. -/
theorem dictGet_eraseKey_ne (d : PyDict) (k k' : String) (dflt : Val)
    (h : k' ≠ k) :
    dictGet (eraseKey d k) k' dflt = dictGet d k' dflt := by
  rw [dictGet, dictGet, eraseKey, find?_filter_of_imp]
  intro x hx
  simp only [beq_iff_eq] at hx
  simp [hx, h]

/-- Looking up the erased key yields the default. -/
theorem dictGet_eraseKey_self (d : PyDict) (k : String) (dflt : Val) :
    dictGet (eraseKey d k) k dflt = dflt := by
  rw [dictGet, eraseKey]
  have hnone : (d.filter (fun p => !(p.1 == k))).find?
      (fun p => p.1 == k) = none := by
    rw [List.find?_eq_none]
    intro x hx
    rw [List.mem_filter] at hx
    simp only [Bool.not_eq_true'] at hx
    simp [hx.2]
  rw [hnone]

/-- A present `fall_timestamp` that is truthy but yields no parsed
instant: either a non-string value (`TypeError` in `fromisoformat`) or
a string rejected by the parse (`ValueError`). -/
def malformedTimestamp (parse : String → Option ℚ) (vision : PyDict) : Prop :=
  truthy (dictGet vision "fall_timestamp" Val.vnone) = true
  ∧ ∀ s, dictGet vision "fall_timestamp" Val.vnone = Val.vstr s →
      parse s = none

/-- Under a malformed timestamp the fall check returns the immediate
fall candidate (the exception is caught inside the check). -/
theorem checkFall_malformed (parse : String → Option ℚ) (vision : PyDict)
    (now : ℚ)
    (hfd : truthy (dictGet vision "fall_detected" Val.vnone) = true)
    (hmal : malformedTimestamp parse vision) :
    checkFallEmergency parse vision now = some fallDetectedCand := by
  simp only [checkFallEmergency, hfd, Bool.not_true]
  rw [if_neg (by simp)]
  rcases htsv : dictGet vision "fall_timestamp" Val.vnone with q | sv | b | _
  · cases hq : truthy (Val.num q) <;> simp [hq]
  · have hts : truthy (Val.vstr sv) = true := by
      rw [← htsv]; exact hmal.1
    rw [if_pos hts]
    dsimp only
    rw [hmal.2 sv htsv]
  · cases hb : truthy (Val.vbool b) <;> simp [hb]
  · simp [truthy]

/-- The fall check on a dict without a timestamp also returns the
immediate fall candidate. -/
theorem checkFall_eraseTs (parse : String → Option ℚ) (vision : PyDict)
    (now : ℚ)
    (hfd : truthy (dictGet vision "fall_detected" Val.vnone) = true) :
    checkFallEmergency parse (eraseKey vision "fall_timestamp") now
      = some fallDetectedCand := by
  simp only [checkFallEmergency,
    dictGet_eraseKey_ne vision "fall_timestamp" "fall_detected" Val.vnone
      (by decide),
    dictGet_eraseKey_self vision "fall_timestamp" Val.vnone,
    hfd, Bool.not_true]
  rw [if_neg (by simp)]
  simp [truthy]

/-- The distress check never reads the timestamp. -/
theorem checkDistress_eraseTs (vision : PyDict) :
    checkDistressEmergency (eraseKey vision "fall_timestamp")
      = checkDistressEmergency vision := by
  simp only [checkDistressEmergency,
    dictGet_eraseKey_ne vision "fall_timestamp" "distress_level"
      (Val.vstr "low") (by decide)]

/-- The pain check never reads the timestamp. -/
theorem checkPain_eraseTs (vision health : PyDict) :
    checkPainEmergency (eraseKey vision "fall_timestamp") health
      = checkPainEmergency vision health := by
  simp only [checkPainEmergency, checkPainIndicators,
    dictGet_eraseKey_ne vision "fall_timestamp" "pain_detected"
      (Val.vbool false) (by decide),
    dictGet_eraseKey_ne vision "fall_timestamp" "pain_expression_count"
      (Val.num 0) (by decide)]

/-- The combined-risks check never reads the timestamp. -/
theorem checkCombined_eraseTs (vision activity health : PyDict) :
    checkCombinedRisks (eraseKey vision "fall_timestamp") activity health
      = checkCombinedRisks vision activity health := by
  simp only [checkCombinedRisks,
    dictGet_eraseKey_ne vision "fall_timestamp" "distress_level"
      Val.vnone (by decide),
    dictGet_eraseKey_ne vision "fall_timestamp" "pain_detected"
      Val.vnone (by decide),
    dictGet_eraseKey_ne vision "fall_timestamp" "unusual_posture"
      Val.vnone (by decide)]

/-- C10: with `fall_detected` truthy and a present-but-malformed
`fall_timestamp` (unparseable string, or non-string), the fall check
does not propagate the exception — it emits the immediate
`fall_detected` critical candidate — and `detect_emergency` behaves
exactly as if no timestamp had been provided. -/
theorem fall_timestamp_malformed_degrades (parse : String → Option ℚ)
    (vision activity health : PyDict) (now : ℚ)
    (hfd : truthy (dictGet vision "fall_detected" Val.vnone) = true)
    (hmal : malformedTimestamp parse vision) :
    checkFallEmergency parse vision now = some fallDetectedCand
    ∧ detectEmergency parse vision activity health now
        = detectEmergency parse (eraseKey vision "fall_timestamp")
            activity health now := by
  have h1 := checkFall_malformed parse vision now hfd hmal
  have h2 := checkFall_eraseTs parse vision now hfd
  refine ⟨h1, ?_⟩
  have hcol : collectEmergencies parse vision activity health now
      = collectEmergencies parse (eraseKey vision "fall_timestamp")
          activity health now := by
    simp only [collectEmergencies, h1, h2, checkDistress_eraseTs,
      checkPain_eraseTs, checkCombined_eraseTs]
  simp only [detectEmergency, hcol]

/-- A vision dict with a truthy but unparseable timestamp. -/
def visionBadTs : PyDict :=
  [("fall_detected", Val.vbool true), ("fall_timestamp", Val.vstr "not-a-date")]

/-- Witness for C10 at the unparseable-timestamp vision dict. -/
theorem fall_timestamp_malformed_degrades_witness :
    truthy (dictGet visionBadTs "fall_detected" Val.vnone) = true
    ∧ malformedTimestamp parseNone visionBadTs
    ∧ (checkFallEmergency parseNone visionBadTs 0 = some fallDetectedCand
       ∧ detectEmergency parseNone visionBadTs [] [] 0
          = detectEmergency parseNone (eraseKey visionBadTs "fall_timestamp")
              [] [] 0) :=
  ⟨rfl, ⟨rfl, fun _ _ => rfl⟩,
   fall_timestamp_malformed_degrades parseNone visionBadTs [] [] 0 rfl
     ⟨rfl, fun _ _ => rfl⟩⟩
/-! ## Claim C1 — selection of the primary emergency -/

/-- `Option.or` with a `some` on the left. -/
theorem or_some_left {α : Type} (a : α) (o : Option α) : (some a).or o = some a := rfl

/-- The head of the severity-sorted candidate list is a candidate of
maximal rank, and the first one of that rank in check order. -/
theorem sortDesc_head_max (l : List Candidate) (c : Candidate)
    (h : (sortBySeverityDesc l).head? = some c) :
    c ∈ l ∧ (∀ d ∈ l, severityRank d.severity ≤ severityRank c.severity)
    ∧ l.find? (fun d => severityRank d.severity == severityRank c.severity)
        = some c := by
  simp only [sortBySeverityDesc, List.head?_append, head?_filter] at h
  cases h4 : l.find? (fun d => severityRank d.severity == 4) with
  | some c4 =>
      rw [h4, or_some_left, or_some_left, or_some_left, or_some_left] at h
      cases Option.some.inj h
      have hc : severityRank c.severity = 4 := by
        have := List.find?_some h4
        rwa [beq_iff_eq] at this
      refine ⟨List.mem_of_find?_eq_some h4, ?_, ?_⟩
      · intro d _
        rw [hc]
        exact severityRank_le_four _
      · rw [hc]
        exact h4
  | none =>
      rw [h4, Option.none_or] at h
      have hn4 : ∀ d ∈ l, severityRank d.severity ≠ 4 := by
        intro d hd
        have := List.find?_eq_none.mp h4 d hd
        simpa [beq_iff_eq] using this
      cases h3 : l.find? (fun d => severityRank d.severity == 3) with
      | some c3 =>
          rw [h3, or_some_left, or_some_left, or_some_left] at h
          cases Option.some.inj h
          have hc : severityRank c.severity = 3 := by
            have := List.find?_some h3
            rwa [beq_iff_eq] at this
          refine ⟨List.mem_of_find?_eq_some h3, ?_, ?_⟩
          · intro d hd
            have := severityRank_le_four d.severity
            have := hn4 d hd
            omega
          · rw [hc]
            exact h3
      | none =>
          rw [h3, Option.none_or] at h
          have hn3 : ∀ d ∈ l, severityRank d.severity ≠ 3 := by
            intro d hd
            have := List.find?_eq_none.mp h3 d hd
            simpa [beq_iff_eq] using this
          cases h2 : l.find? (fun d => severityRank d.severity == 2) with
          | some c2 =>
              rw [h2, or_some_left, or_some_left] at h
              cases Option.some.inj h
              have hc : severityRank c.severity = 2 := by
                have := List.find?_some h2
                rwa [beq_iff_eq] at this
              refine ⟨List.mem_of_find?_eq_some h2, ?_, ?_⟩
              · intro d hd
                have := severityRank_le_four d.severity
                have := hn4 d hd
                have := hn3 d hd
                omega
              · rw [hc]
                exact h2
          | none =>
              rw [h2, Option.none_or] at h
              have hn2 : ∀ d ∈ l, severityRank d.severity ≠ 2 := by
                intro d hd
                have := List.find?_eq_none.mp h2 d hd
                simpa [beq_iff_eq] using this
              cases h1 : l.find? (fun d => severityRank d.severity == 1) with
              | some c1 =>
                  rw [h1, or_some_left] at h
                  cases Option.some.inj h
                  have hc : severityRank c.severity = 1 := by
                    have := List.find?_some h1
                    rwa [beq_iff_eq] at this
                  refine ⟨List.mem_of_find?_eq_some h1, ?_, ?_⟩
                  · intro d hd
                    have := severityRank_le_four d.severity
                    have := hn4 d hd
                    have := hn3 d hd
                    have := hn2 d hd
                    omega
                  · rw [hc]
                    exact h1
              | none =>
                  rw [h1, Option.none_or] at h
                  have hn1 : ∀ d ∈ l, severityRank d.severity ≠ 1 := by
                    intro d hd
                    have := List.find?_eq_none.mp h1 d hd
                    simpa [beq_iff_eq] using this
                  have hc : severityRank c.severity = 0 := by
                    have := List.find?_some h
                    rwa [beq_iff_eq] at this
                  refine ⟨List.mem_of_find?_eq_some h, ?_, ?_⟩
                  · intro d hd
                    have := severityRank_le_four d.severity
                    have := hn4 d hd
                    have := hn3 d hd
                    have := hn2 d hd
                    have := hn1 d hd
                    omega
                  · rw [hc]
                    exact h

/-- C1, amended: with at least one triggered candidate,
`detect_emergency` reports as primary the first candidate of maximal
severity rank in check order, retains the full triggered list (as its
severity-sorted permutation) in `all_concerns`, and sets
`total_emergencies` to its count; with zero candidates it returns the
well-formed no-emergency result — which does NOT carry the
`total_emergencies` key. -/
theorem detect_emergency_selection (parse : String → Option ℚ)
    (vision activity health : PyDict) (now : ℚ)
    (L : List Candidate) (r : EmergencyResult)
    (hcol : collectEmergencies parse vision activity health now = Except.ok L)
    (hdet : detectEmergency parse vision activity health now = Except.ok r) :
    (L = [] → r =
      { emergency := false, emergency_type := none, severity := "none",
        alert_message := none, recommended_action := none, all_concerns := [],
        total_emergencies := none, timestamp := now })
    ∧ (L ≠ [] → r.emergency = true
        ∧ r.all_concerns = sortBySeverityDesc L
        ∧ (sortBySeverityDesc L).Perm L
        ∧ r.total_emergencies = some L.length
        ∧ ∃ c, (sortBySeverityDesc L).head? = some c
            ∧ r.emergency_type = some c.ctype
            ∧ r.severity = c.severity
            ∧ r.alert_message = some c.message
            ∧ r.recommended_action = some c.action
            ∧ c ∈ L
            ∧ (∀ d ∈ L, severityRank d.severity ≤ severityRank c.severity)
            ∧ L.find? (fun d => severityRank d.severity == severityRank c.severity)
                = some c) := by
  simp only [detectEmergency, hcol, exceptOkBind] at hdet
  have hperm := sortBySeverityDesc_perm L
  constructor
  · intro hL
    subst hL
    simp only [List.isEmpty_nil, if_true, exceptPure] at hdet
    exact (Except.ok.inj hdet).symm
  · intro hL
    have hne : L.isEmpty = false := by
      cases hLe : L.isEmpty
      · rfl
      · exact absurd (List.isEmpty_iff.mp hLe) hL
    rw [hne] at hdet
    simp only [Bool.false_eq_true, if_false] at hdet
    cases hsort : sortBySeverityDesc L with
    | nil =>
        rw [hsort] at hperm
        exact absurd (hperm.nil_eq).symm hL
    | cons top rest =>
        rw [hsort] at hdet
        have hr := (Except.ok.inj hdet).symm
        subst hr
        rw [hsort] at hperm
        have hhead : (sortBySeverityDesc L).head? = some top := by
          rw [hsort]; rfl
        have hm := sortDesc_head_max L top hhead
        exact ⟨rfl, rfl, hperm, congrArg some hperm.length_eq,
          top, rfl, rfl, rfl, rfl, rfl, hm.1, hm.2.1, hm.2.2⟩

/-- The well-formed no-emergency result at instant `now` (note: no
`total_emergencies` key, i.e. `none`). -/
def noEmergencyAt (now : ℚ) : EmergencyResult :=
  { emergency := false, emergency_type := none, severity := "none",
    alert_message := none, recommended_action := none, all_concerns := [],
    total_emergencies := none, timestamp := now }

/-- C1, counterexample: with zero triggered candidates the returned
dict lacks the `total_emergencies` key (`none` in the model), though the
claim asserts the field is present in every result. -/
theorem detect_emergency_no_total_counterexample :
    detectEmergency parseNone [] [] [] 0 = Except.ok (noEmergencyAt 0)
    ∧ (noEmergencyAt 0).total_emergencies = none :=
  ⟨rfl, rfl⟩

/-- A health dict with one emergency-button press. -/
def healthButtonW : PyDict := [("emergency_button_presses", Val.num 1)]

/-- The candidate the button check emits for one press. -/
def buttonCandW : Candidate :=
  { ctype := "emergency_button", severity := "critical",
    message := "🚨 EMERGENCY BUTTON PRESSED (" ++ qstr 1 ++ " times)!",
    action := "Contact IMMEDIATELY or call emergency services. Elder has actively requested help." }

/-- The emergency result reported for the single button candidate. -/
def emergResultW : EmergencyResult :=
  { emergency := true, emergency_type := some buttonCandW.ctype,
    severity := buttonCandW.severity,
    alert_message := some buttonCandW.message,
    recommended_action := some buttonCandW.action,
    all_concerns := [buttonCandW], total_emergencies := some 1,
    timestamp := 0 }

/-- Witness for C1 at a single triggered candidate (button press). -/
theorem detect_emergency_selection_witness :
    collectEmergencies parseNone [] [] healthButtonW 0
      = Except.ok [buttonCandW]
    ∧ detectEmergency parseNone [] [] healthButtonW 0
      = Except.ok emergResultW
    ∧ (([buttonCandW] = ([] : List Candidate) → emergResultW =
        { emergency := false, emergency_type := none, severity := "none",
          alert_message := none, recommended_action := none,
          all_concerns := [], total_emergencies := none, timestamp := 0 })
      ∧ ([buttonCandW] ≠ ([] : List Candidate) →
          emergResultW.emergency = true
          ∧ emergResultW.all_concerns = sortBySeverityDesc [buttonCandW]
          ∧ (sortBySeverityDesc [buttonCandW]).Perm [buttonCandW]
          ∧ emergResultW.total_emergencies = some ([buttonCandW] : List Candidate).length
          ∧ ∃ c, (sortBySeverityDesc [buttonCandW]).head? = some c
              ∧ emergResultW.emergency_type = some c.ctype
              ∧ emergResultW.severity = c.severity
              ∧ emergResultW.alert_message = some c.message
              ∧ emergResultW.recommended_action = some c.action
              ∧ c ∈ [buttonCandW]
              ∧ (∀ d ∈ [buttonCandW],
                  severityRank d.severity ≤ severityRank c.severity)
              ∧ ([buttonCandW] : List Candidate).find?
                  (fun d => severityRank d.severity == severityRank c.severity)
                  = some c)) :=
  ⟨rfl, rfl,
   detect_emergency_selection parseNone [] [] healthButtonW 0
     [buttonCandW] emergResultW rfl rfl⟩

/-! ## Claim C5 — the 30-minute cooldown cycle -/

/-- C5: from a history whose recorded instants for the key are all at
most `t1`, a first successful dispatch at `t1` records exactly one new
timestamp (the pruned old list plus `t1`); a second dispatch for the
same `(subjectId, alertType)` key within 30 minutes is suppressed with
`sent=False`, reason "rate_limited" and no channel counters (no channel
invoked), leaving the history untouched; a third dispatch more than 30
minutes after `t1` is sent again. -/
theorem alert_cooldown_cycle (hist : AlertHistory) (e a sev : String)
    (fam : List FamilyMember) (t1 t2 t3 : ℚ)
    (hold : ∀ ts ∈ hist (alertKey e a), ts ≤ t1)
    (hsent1 : (sendEmergencyAlert hist e a sev fam t1).1.sent = true)
    (h12 : t2 - t1 < 30)
    (h13 : t3 - t1 > 30) :
    (sendEmergencyAlert hist e a sev fam t1).2 (alertKey e a)
      = (hist (alertKey e a)).filter (fun ts => ts > t1 - 60) ++ [t1]
    ∧ (sendEmergencyAlert (sendEmergencyAlert hist e a sev fam t1).2
        e a sev fam t2).1
      = { sent := false, reason := some "rate_limited", results := none }
    ∧ (sendEmergencyAlert (sendEmergencyAlert hist e a sev fam t1).2
        e a sev fam t2).2
      = (sendEmergencyAlert hist e a sev fam t1).2
    ∧ (sendEmergencyAlert (sendEmergencyAlert hist e a sev fam t1).2
        e a sev fam t3).1.sent = true := by
  set key := alertKey e a with hkey
  have hrl1 : isRateLimited hist key t1 = false := by
    cases hrl : isRateLimited hist key t1
    · rfl
    · exfalso
      rw [sendEmergencyAlert] at hsent1
      rw [hkey] at hrl
      rw [hrl] at hsent1
      simp at hsent1
  have hstep1 : sendEmergencyAlert hist e a sev fam t1
      = ({ sent := true, reason := none,
           results := some
             { fcm_sent := (fam.filter (fun m => m.fcmToken.isSome)).length,
               sms_sent := (fam.filter
                 (fun m => sev == "critical" && m.phone.isSome)).length,
               failed := 0 } },
         recordAlert hist key t1) := by
    rw [sendEmergencyAlert, ← hkey, hrl1]
    simp
  have hstate1 : (sendEmergencyAlert hist e a sev fam t1).2 key
      = (hist key).filter (fun ts => ts > t1 - 60) ++ [t1] := by
    rw [hstep1]
    show (if key = key then ((hist key) ++ [t1]).filter
        (fun ts => ts > t1 - 60) else hist key)
      = (hist key).filter (fun ts => ts > t1 - 60) ++ [t1]
    rw [if_pos rfl, List.filter_append]
    have ht1 : (t1 : ℚ) > t1 - 60 := by linarith
    simp [ht1]
  have ht1mem : t1 ∈ (sendEmergencyAlert hist e a sev fam t1).2 key := by
    rw [hstate1]
    exact List.mem_append_right _ (List.mem_singleton.mpr rfl)
  have hmem_le : ∀ ts ∈ (sendEmergencyAlert hist e a sev fam t1).2 key,
      ts ≤ t1 := by
    intro ts hts
    rw [hstate1] at hts
    rcases List.mem_append.mp hts with h | h
    · exact hold ts (List.mem_of_mem_filter h)
    · rw [List.mem_singleton.mp h]
  have hrl2 : isRateLimited ((sendEmergencyAlert hist e a sev fam t1).2)
      key t2 = true := by
    rw [isRateLimited]
    have hmem : t1 ∈ ((sendEmergencyAlert hist e a sev fam t1).2 key).filter
        (fun ts => decide (t2 - ts < 30)) := by
      rw [List.mem_filter]
      exact ⟨ht1mem, by simp [h12]⟩
    simp only [decide_eq_true_eq]
    exact List.length_pos.mpr (List.ne_nil_of_mem hmem)
  have hrl3 : isRateLimited ((sendEmergencyAlert hist e a sev fam t1).2)
      key t3 = false := by
    rw [isRateLimited]
    have hnil : ((sendEmergencyAlert hist e a sev fam t1).2 key).filter
        (fun ts => decide (t3 - ts < 30)) = [] := by
      rw [List.filter_eq_nil_iff]
      intro ts hts
      have := hmem_le ts hts
      simp only [decide_eq_true_eq]
      intro hlt
      linarith
    rw [hnil]
    rfl
  refine ⟨hstate1, ?_, ?_, ?_⟩
  · rw [sendEmergencyAlert, ← hkey, hrl2]
    simp
  · rw [sendEmergencyAlert, ← hkey, hrl2]
    simp
  · rw [sendEmergencyAlert, ← hkey, hrl3]
    simp

/-- The empty alert history. -/
def emptyHistory : AlertHistory := fun _ => []

/-- Witness for C5: key `"e:t"`, dispatches at minutes 0, 1 and 31. -/
theorem alert_cooldown_cycle_witness :
    (∀ ts ∈ emptyHistory (alertKey "e" "t"), ts ≤ (0:ℚ))
    ∧ (sendEmergencyAlert emptyHistory "e" "t" "critical" [] 0).1.sent = true
    ∧ (1:ℚ) - 0 < 30 ∧ (31:ℚ) - 0 > 30
    ∧ ((sendEmergencyAlert emptyHistory "e" "t" "critical" [] 0).2 (alertKey "e" "t")
        = (emptyHistory (alertKey "e" "t")).filter (fun ts => ts > 0 - 60) ++ [0]
      ∧ (sendEmergencyAlert (sendEmergencyAlert emptyHistory "e" "t" "critical" [] 0).2
          "e" "t" "critical" [] 1).1
        = { sent := false, reason := some "rate_limited", results := none }
      ∧ (sendEmergencyAlert (sendEmergencyAlert emptyHistory "e" "t" "critical" [] 0).2
          "e" "t" "critical" [] 1).2
        = (sendEmergencyAlert emptyHistory "e" "t" "critical" [] 0).2
      ∧ (sendEmergencyAlert (sendEmergencyAlert emptyHistory "e" "t" "critical" [] 0).2
          "e" "t" "critical" [] 31).1.sent = true) :=
  ⟨fun ts hts => absurd hts (List.not_mem_nil ts), rfl,
   by norm_num, by norm_num,
   alert_cooldown_cycle emptyHistory "e" "t" "critical" [] 0 1 31
     (fun ts hts => absurd hts (List.not_mem_nil ts)) rfl
     (by norm_num) (by norm_num)⟩

/-! ## Claim C6 — when pruning happens -/

/-- C6, amended: pruning of entries older than 1 hour happens only in
`_record_alert`, i.e. after the rate-limit decision and only on a
non-suppressed dispatch; a rate-limited dispatch leaves the history
(stale entries included) untouched.  The invariant holds in this form:
immediately after the write that follows a successful dispatch, every
entry for the key is newer than 1 hour. -/
theorem prune_only_on_record (hist : AlertHistory) (e a sev : String)
    (fam : List FamilyMember) (now : ℚ) :
    ((sendEmergencyAlert hist e a sev fam now).1.sent = false →
      (sendEmergencyAlert hist e a sev fam now).2 = hist)
    ∧ ((sendEmergencyAlert hist e a sev fam now).1.sent = true →
      (∀ ts ∈ (sendEmergencyAlert hist e a sev fam now).2 (alertKey e a),
        ts > now - 60)
      ∧ (∀ k, k ≠ alertKey e a →
        (sendEmergencyAlert hist e a sev fam now).2 k = hist k)) := by
  cases hrl : isRateLimited hist (alertKey e a) now
  · constructor
    · intro hs
      exfalso
      rw [sendEmergencyAlert, hrl] at hs
      simp at hs
    · intro _
      constructor
      · intro ts hts
        rw [sendEmergencyAlert, hrl] at hts
        simp only [Bool.false_eq_true, if_false] at hts
        have : ts ∈ ((hist (alertKey e a)) ++ [now]).filter
            (fun ts => decide (ts > now - 60)) := by
          simpa [recordAlert] using hts
        have := (List.mem_filter.mp this).2
        simpa using this
      · intro k hk
        rw [sendEmergencyAlert, hrl]
        simp only [Bool.false_eq_true, if_false]
        show recordAlert hist (alertKey e a) now k = hist k
        rw [recordAlert, if_neg hk]
  · constructor
    · intro _
      rw [sendEmergencyAlert, hrl]
      rfl
    · intro hs
      exfalso
      rw [sendEmergencyAlert, hrl] at hs
      simp at hs

/-- A history with a 2-hour-old and a 10-minute-old entry for the key. -/
def histStale : AlertHistory :=
  fun k => if k = alertKey "e" "t" then [-120, -10] else []

/-- C6, counterexample: a dispatch attempt at minute 0 against
`histStale` is suppressed (rate-limited by the 10-minute-old entry)
and nothing is pruned before or after the decision — the 2-hour-old
entry is still in the history, though the claim says entries older than
1 hour are pruned on every dispatch attempt before deciding. -/
theorem prune_not_before_decision_counterexample :
    (sendEmergencyAlert histStale "e" "t" "critical" [] 0).1.reason
      = some "rate_limited"
    ∧ (sendEmergencyAlert histStale "e" "t" "critical" [] 0).2 = histStale
    ∧ (-120 : ℚ) ∈ (sendEmergencyAlert histStale "e" "t" "critical" [] 0).2
        (alertKey "e" "t")
    ∧ (0:ℚ) - (-120) > 60 := by
  have hlist : histStale (alertKey "e" "t") = [-120, -10] := by
    rw [histStale, if_pos rfl]
  have hrl : isRateLimited histStale (alertKey "e" "t") 0 = true := by
    rw [isRateLimited, hlist]
    have hmem : (-10 : ℚ) ∈ ([-120, -10] : List ℚ).filter
        (fun ts => decide ((0:ℚ) - ts < 30)) := by
      rw [List.mem_filter]
      refine ⟨by simp, by norm_num⟩
    simp only [decide_eq_true_eq]
    exact List.length_pos.mpr (List.ne_nil_of_mem hmem)
  have h2 : (sendEmergencyAlert histStale "e" "t" "critical" [] 0).2
      = histStale := by
    rw [sendEmergencyAlert, hrl]
    rfl
  refine ⟨?_, h2, ?_, by norm_num⟩
  · rw [sendEmergencyAlert, hrl]
    rfl
  · rw [h2, hlist]
    simp

/-- Witness for C6 on a successful dispatch from the empty history. -/
theorem prune_only_on_record_witness :
    (sendEmergencyAlert emptyHistory "e" "t" "critical" [] 0).1.sent = true
    ∧ ((∀ ts ∈ (sendEmergencyAlert emptyHistory "e" "t" "critical" [] 0).2
          (alertKey "e" "t"), ts > (0:ℚ) - 60)
      ∧ (∀ k, k ≠ alertKey "e" "t" →
          (sendEmergencyAlert emptyHistory "e" "t" "critical" [] 0).2 k
            = emptyHistory k)) :=
  ⟨rfl,
   (prune_only_on_record emptyHistory "e" "t" "critical" [] 0).2 rfl⟩
